import Mathlib

/-!
Verification of the saltant SDK model/manager layer
(`saltant/models/resource.py`, `base_task_type.py`, `base_task_instance.py`,
`container_task_type.py`).

The Python code is shallowly embedded: Python values are the inductive
`PyVal`, runtime exceptions are `PyErr`, dicts are insertion-ordered
association lists (Python 3.7+ semantics), and each manager method becomes a
Lean function returning the list of HTTP requests it issued together with an
`Except PyErr` outcome.  Python calling errors (unexpected keyword argument,
undefined name) are modelled explicitly: call sites carry the literal keyword
names written in the source, and a generic kwarg check compares them with the
callee's literal parameter list.
-/

namespace Saltant

/-- A Python value, as far as this client manipulates them.  A parsed
date-time (the result of `dateutil.parser.parse` on a string) is abstracted
as the structured value `PyVal.datetime s` holding the original string: the
claims only need that parsing converts a string into a structured, non-string
value, deterministically. -/
inductive PyVal where
  | none : PyVal
  | int : Int → PyVal
  | str : String → PyVal
  | datetime : String → PyVal
  | list : List PyVal → PyVal
  | dict : List (String × PyVal) → PyVal

/-- Python exceptions observable in this code base. -/
inductive PyErr where
  | nameError (name : String)
  | typeErrorUnexpectedKwarg (func : String) (kwarg : String)
  | typeErrorMissingArg (func : String) (arg : String)
  | typeError (msg : String)
  | attributeError (attr : String)
  | valueError (msg : String)
  | keyError (key : String)
  | notImplementedError
  | badHttpRequestError (msg : String)
deriving DecidableEq

/-- `k in d` for a Python dict. -/
def dictContains (d : List (String × PyVal)) (k : String) : Bool :=
  d.any (fun kv => kv.1 == k)

/-- `d[k]` lookup, as an `Option`. -/
def dictGet (d : List (String × PyVal)) (k : String) : Option PyVal :=
  (d.find? (fun kv => kv.1 == k)).map Prod.snd

/-- `d[k] = v`: updates in place when the key exists, otherwise appends
(Python dicts preserve insertion order). -/
def dictSet (d : List (String × PyVal)) (k : String) (v : PyVal) :
    List (String × PyVal) :=
  if dictContains d k then d.map (fun kv => if kv.1 == k then (k, v) else kv)
  else d ++ [(k, v)]

/-- Python truthiness (`if x:`) for the values above. -/
def pyTruthy : PyVal → Bool
  | PyVal.none => false
  | PyVal.int n => n != 0
  | PyVal.str s => s != ""
  | PyVal.datetime _ => true
  | PyVal.list xs => !xs.isEmpty
  | PyVal.dict kvs => !kvs.isEmpty

/-- `x is None`. -/
def isNone : PyVal → Bool
  | PyVal.none => true
  | _ => false

mutual

/-- `json.dumps` with its default settings (separators `", "` and `": "`).
String escaping is elided: the strings this client serializes are field
names and plain values without quotes or backslashes. -/
def jsonDumps : PyVal → String
  | PyVal.none => "null"
  | PyVal.int n => toString n
  | PyVal.str s => "\"" ++ s ++ "\""
  | PyVal.datetime s => "\"" ++ s ++ "\""
  | PyVal.list xs => "[" ++ jsonDumpsList xs ++ "]"
  | PyVal.dict kvs => "\x7b" ++ jsonDumpsDict kvs ++ "\x7d"

/-- Comma-separated dump of a JSON array's elements. -/
def jsonDumpsList : List PyVal → String
  | [] => ""
  | [x] => jsonDumps x
  | x :: xs => jsonDumps x ++ ", " ++ jsonDumpsList xs

/-- Comma-separated dump of a JSON object's entries. -/
def jsonDumpsDict : List (String × PyVal) → String
  | [] => ""
  | [(k, v)] => "\"" ++ k ++ "\": " ++ jsonDumps v
  | (k, v) :: kvs => "\"" ++ k ++ "\": " ++ jsonDumps v ++ ", " ++ jsonDumpsDict kvs

end

/-- Python `str()` as used in `'{param}={val}'.format(...)`; only ints and
strings reach this point in the embedded code. -/
def pyStr : PyVal → String
  | PyVal.none => "None"
  | PyVal.int n => toString n
  | PyVal.str s => s
  | PyVal.datetime s => s
  | v => jsonDumps v

/-- `dateutil.parser.parse`: turns a date-time string into a structured
date-time value; anything that is not a string raises. -/
def dateutilParse : PyVal → Except PyErr PyVal
  | PyVal.str s => Except.ok (PyVal.datetime s)
  | _ => Except.error (PyErr.typeError "parse expects a string")

/-- An HTTP response as the transport session returns it: `.text`,
`.status_code` and the decoded `.json()` body. -/
structure HttpResponse where
  text : String
  status_code : Int
  jsonBody : PyVal

/-- An HTTP request as issued by a manager. -/
inductive Request where
  | get (url : String)
  | post (url : String) (data : List (String × PyVal))

/-- The transport session: responds to `GET url` and `POST url data`. -/
structure Session where
  getResponse : String → HttpResponse
  postResponse : String → List (String × PyVal) → HttpResponse

/-- The transport client: a base API URL plus an authenticated session. -/
structure Client where
  base_api_url : String
  session : Session

/-- A manager's state: the saved client plus the `list_url` / `detail_url`
class attributes.  The detail URL is a `str.format` template whose only use
is `self.detail_url.format(...)`, so it is embedded directly as the
substitution function it denotes. -/
structure Manager where
  _client : Client
  list_url : String
  detail_url : String → String

/-- Checks a Python call's keyword arguments against the callee's parameter
list; the first keyword not in the list raises `TypeError: <func>() got an
unexpected keyword argument '<kwarg>'`. -/
def checkKwargs (funcName : String) (params kwargs : List String) :
    Except PyErr Unit :=
  match kwargs.find? (fun k => !(params.contains k)) with
  | Option.some k => Except.error (PyErr.typeErrorUnexpectedKwarg funcName k)
  | Option.none => Except.ok ()

/-- Modelled from the spec: `saltant.constants` is not among the given
sources; the spec's "OK" expected status fixes the value. -/
def HTTP_200_OK : Int := 200

/-- Modelled from the spec: `saltant.constants` is not among the given
sources; the spec's "Created" expected status fixes the value. -/
def HTTP_201_CREATED : Int := 201

/-- `ModelManager.validate_request_success` (resource.py lines 42-65),
called with its declared parameters: asserts the status equality and on
failure raises `BadHttpRequestError` with the formatted message. -/
def validate_request_success (request_url : String)
    (status_code expected_status_code : Int) : Except PyErr Unit :=
  if status_code == expected_status_code then Except.ok ()
  else Except.error (PyErr.badHttpRequestError
    ("Request to " ++ request_url ++ " failed with status " ++ toString status_code))

/-- The parameter names of `validate_request_success` as declared in
resource.py (besides the absence of `self`, which `@staticmethod` removes). -/
def validateRequestSuccessParams : List String :=
  ["request_url", "status_code", "expected_status_code"]

/-- The keyword names every manager call site passes to
`validate_request_success` (base_task_type.py lines 168-172,
base_task_instance.py lines 108-112, 177-181, 224-228). -/
def validateCallKwargNames : List String :=
  ["response_text", "request_url", "status_code", "expected_status_code"]

/-- `ModelManager.get` takes no parameter besides `self` (resource.py
lines 34-36); its body is `raise NotImplementedError`. -/
def modelManagerGetParams : List String := []

/-- `ModelManager.list` takes no parameter besides `self` (resource.py
lines 30-32); its body is `raise NotImplementedError`. -/
def modelManagerListParams : List String := []

/-- `BaseTaskType` (base_task_type.py lines 14-67): the attributes its
`__init__` assigns. -/
structure BaseTaskType where
  id : PyVal
  name : PyVal
  description : PyVal
  user : PyVal
  datetime_created : PyVal
  command_to_run : PyVal
  environment_variables : PyVal
  required_arguments : PyVal
  required_arguments_default_values : PyVal

/-- The parameter names of `BaseTaskType.__init__` (base_task_type.py
lines 31-41); all are required (none has a default). -/
def baseTaskTypeInitParams : List String :=
  ["id", "name", "description", "user", "datetime_created", "command_to_run",
   "environment_variables", "required_arguments",
   "required_arguments_default_values"]

/-- Looks up a required parameter among keyword arguments; a missing one
raises `TypeError: missing a required argument`. -/
def requiredArg (funcName : String) (kwargs : List (String × PyVal))
    (k : String) : Except PyErr PyVal :=
  match dictGet kwargs k with
  | Option.some v => Except.ok v
  | Option.none => Except.error (PyErr.typeErrorMissingArg funcName k)

/-- `BaseTaskType(**kwargs)`: Python rejects any keyword not among the
declared parameters, then binds each required parameter. -/
def baseTaskTypeInit (kwargs : List (String × PyVal)) :
    Except PyErr BaseTaskType :=
  match kwargs.find? (fun kv => !(baseTaskTypeInitParams.contains kv.1)) with
  | Option.some kv =>
      Except.error (PyErr.typeErrorUnexpectedKwarg "BaseTaskType.__init__" kv.1)
  | Option.none => do
    let id ← requiredArg "BaseTaskType.__init__" kwargs "id"
    let name ← requiredArg "BaseTaskType.__init__" kwargs "name"
    let description ← requiredArg "BaseTaskType.__init__" kwargs "description"
    let user ← requiredArg "BaseTaskType.__init__" kwargs "user"
    let datetime_created ←
      requiredArg "BaseTaskType.__init__" kwargs "datetime_created"
    let command_to_run ←
      requiredArg "BaseTaskType.__init__" kwargs "command_to_run"
    let environment_variables ←
      requiredArg "BaseTaskType.__init__" kwargs "environment_variables"
    let required_arguments ←
      requiredArg "BaseTaskType.__init__" kwargs "required_arguments"
    let required_arguments_default_values ←
      requiredArg "BaseTaskType.__init__" kwargs
        "required_arguments_default_values"
    Except.ok { id, name, description, user, datetime_created, command_to_run,
                environment_variables, required_arguments,
                required_arguments_default_values }

/-- `BaseTaskInstance` (base_task_instance.py lines 15-73): the attributes
its `__init__` assigns. -/
structure BaseTaskInstance where
  name : PyVal
  uuid : PyVal
  state : PyVal
  user : PyVal
  task_queue : PyVal
  task_type : PyVal
  datetime_created : PyVal
  datetime_finished : PyVal
  arguments : PyVal

/-- The parameter names of `BaseTaskInstance.__init__`
(base_task_instance.py lines 32-42); `name` alone has a default (`""`). -/
def baseTaskInstanceInitParams : List String :=
  ["uuid", "state", "user", "task_queue", "task_type", "datetime_created",
   "datetime_finished", "arguments", "name"]

/-- `BaseTaskInstance(**kwargs)`. -/
def baseTaskInstanceInit (kwargs : List (String × PyVal)) :
    Except PyErr BaseTaskInstance :=
  match kwargs.find? (fun kv => !(baseTaskInstanceInitParams.contains kv.1)) with
  | Option.some kv =>
      Except.error
        (PyErr.typeErrorUnexpectedKwarg "BaseTaskInstance.__init__" kv.1)
  | Option.none => do
    let uuid ← requiredArg "BaseTaskInstance.__init__" kwargs "uuid"
    let state ← requiredArg "BaseTaskInstance.__init__" kwargs "state"
    let user ← requiredArg "BaseTaskInstance.__init__" kwargs "user"
    let task_queue ← requiredArg "BaseTaskInstance.__init__" kwargs "task_queue"
    let task_type ← requiredArg "BaseTaskInstance.__init__" kwargs "task_type"
    let datetime_created ←
      requiredArg "BaseTaskInstance.__init__" kwargs "datetime_created"
    let datetime_finished ←
      requiredArg "BaseTaskInstance.__init__" kwargs "datetime_finished"
    let arguments ← requiredArg "BaseTaskInstance.__init__" kwargs "arguments"
    let name := (dictGet kwargs "name").getD (PyVal.str "")
    Except.ok { name, uuid, state, user, task_queue, task_type,
                datetime_created, datetime_finished, arguments }

/-- `ContainerTaskType` (container_task_type.py lines 12-103): the base
attributes plus the container-specific ones. -/
structure ContainerTaskType extends BaseTaskType where
  logs_path : PyVal
  results_path : PyVal
  container_image : PyVal
  container_type : PyVal

/-- `ContainerTaskType.__init__` (container_task_type.py lines 41-103): it
forwards its base fields — and `manager` — as keyword arguments to
`BaseTaskType.__init__` (lines 86-97), then would assign the
container-specific attributes. -/
def containerTaskTypeInit
    (id name description user datetime_created command_to_run
      environment_variables required_arguments
      required_arguments_default_values
      logs_path results_path container_image container_type manager : PyVal) :
    Except PyErr ContainerTaskType :=
  match baseTaskTypeInit
      [("id", id), ("name", name), ("description", description),
       ("user", user), ("datetime_created", datetime_created),
       ("command_to_run", command_to_run),
       ("environment_variables", environment_variables),
       ("required_arguments", required_arguments),
       ("required_arguments_default_values",
         required_arguments_default_values),
       ("manager", manager)] with
  | Except.error e => Except.error e
  | Except.ok base =>
      Except.ok { base with logs_path, results_path, container_image,
                            container_type }

/-- `BaseTaskInstanceManager.response_data_to_model_instance`
(base_task_instance.py lines 233-254): coerces `datetime_created` always and
`datetime_finished` when truthy, then calls `cls.model(**response_data)`
with `cls.model = BaseTaskInstance`. -/
def tiResponseDataToModelInstance (response_data : PyVal) :
    Except PyErr BaseTaskInstance :=
  match response_data with
  | PyVal.dict d =>
    match dictGet d "datetime_created" with
    | Option.none => Except.error (PyErr.keyError "datetime_created")
    | Option.some dc =>
      match dateutilParse dc with
      | Except.error e => Except.error e
      | Except.ok dcParsed =>
        let d := dictSet d "datetime_created" dcParsed
        match dictGet d "datetime_finished" with
        | Option.none => Except.error (PyErr.keyError "datetime_finished")
        | Option.some df =>
          if pyTruthy df then
            match dateutilParse df with
            | Except.error e => Except.error e
            | Except.ok dfParsed =>
                baseTaskInstanceInit (dictSet d "datetime_finished" dfParsed)
          else baseTaskInstanceInit d
  | _ => Except.error (PyErr.typeError "response data is not a dict")

/-- `BaseTaskTypeManager.response_data_to_model_instance` (base_task_type.py
lines 177-195): coerces `datetime_created`, then calls
`super(BaseTaskTypeManager, self).response_data_to_model_instance(...)`; the
next class in the method resolution order is `ModelManager` (resource.py),
which defines no attribute of that name, so the lookup raises
`AttributeError`. -/
def ttResponseDataToModelInstance (response_data : PyVal) :
    Except PyErr BaseTaskType :=
  match response_data with
  | PyVal.dict d =>
    match dictGet d "datetime_created" with
    | Option.none => Except.error (PyErr.keyError "datetime_created")
    | Option.some dc =>
      match dateutilParse dc with
      | Except.error e => Except.error e
      | Except.ok dcParsed =>
        let _ := dictSet d "datetime_created" dcParsed
        Except.error (PyErr.attributeError "response_data_to_model_instance")
  | _ => Except.error (PyErr.typeError "response data is not a dict")

/-- `BaseTaskInstanceManager.get` (base_task_instance.py lines 89-115):
builds the detail URL, issues the `GET`, and then evaluates the arguments of
the `validate_request_success` call — whose first keyword argument is
`reponse.text` (line 109), and no name `reponse` is in scope, so a
`NameError` is raised there.  The pair returned is (requests issued,
outcome). -/
def baseTaskInstanceGet (mgr : Manager) (uuid : PyVal) :
    List Request × Except PyErr BaseTaskInstance :=
  let request_url := mgr._client.base_api_url ++ mgr.detail_url (pyStr uuid)
  let response := mgr._client.session.getResponse request_url
  let _ := response
  ([Request.get request_url], Except.error (PyErr.nameError "reponse"))

/-- `BaseTaskInstanceManager.list` (base_task_instance.py lines 117-185):
after defaulting a falsy `query_filters` to `{}` (lines 140-141), the very
next statement is `if page not in query_filters:` (line 143) — no name
`page` is defined anywhere in the module, so a `NameError` is raised before
any URL is built or any request issued. -/
def baseTaskInstanceList (mgr : Manager)
    (query_filters : Option (List (String × PyVal))) :
    List Request × Except PyErr BaseTaskInstance :=
  let query_filters :=
    match query_filters with
    | Option.none => ([] : List (String × PyVal))
    | Option.some d => d
  let _ := query_filters
  let _ := mgr
  ([], Except.error (PyErr.nameError "page"))

/-- The query-filter serialization loop of `list` (base_task_instance.py
lines 151-165), embedded on its own: `'?'` before the first filter, `'&'`
before each later one, iterating the dict in insertion order.  In the method
itself this code is unreachable because of the `NameError` above. -/
def queryFilterSubUrl (query_filters : List (String × PyVal)) : String :=
  query_filters.enum.foldl
    (fun acc p =>
      acc ++ (if p.1 == 0 then "?" else "&") ++ p.2.1 ++ "=" ++ pyStr p.2.2)
    ""

/-- Follows the spec's words (and the intent stated by the code's own
comment on lines 136-139): inject `page = 1` and
`page_size = 9223372036854775807` unless the caller supplied those keys. -/
def injectPaginationSpec (query_filters : List (String × PyVal)) :
    List (String × PyVal) :=
  let qf :=
    if dictContains query_filters "page" then query_filters
    else dictSet query_filters "page" (PyVal.int 1)
  if dictContains qf "page_size" then qf
  else dictSet qf "page_size" (PyVal.int 9223372036854775807)

/-- Follows the spec's words: the request URL `list` is specified to build —
base API URL, list URL, then the serialized filters with the pagination
defaults injected. -/
def listRequestUrlSpec (mgr : Manager)
    (query_filters : Option (List (String × PyVal))) : String :=
  let qf :=
    match query_filters with
    | Option.none => ([] : List (String × PyVal))
    | Option.some d => d
  mgr._client.base_api_url ++ mgr.list_url
    ++ queryFilterSubUrl (injectPaginationSpec qf)

/-- The `data_to_post` dictionary of `BaseTaskInstanceManager.create`
(base_task_instance.py lines 209-219): a falsy `arguments` becomes `{}`
(lines 210-211), and `arguments` is posted as `json.dumps(arguments)`. -/
def baseTaskInstanceCreateDataToPost
    (task_type_id task_queue_id arguments name : PyVal) :
    List (String × PyVal) :=
  let arguments := if pyTruthy arguments then arguments else PyVal.dict []
  [("name", name),
   ("arguments", PyVal.str (jsonDumps arguments)),
   ("task_type", task_type_id),
   ("task_queue", task_queue_id)]

/-- `BaseTaskInstanceManager.create` (base_task_instance.py lines 187-231):
posts the payload, then calls `validate_request_success` with the keyword
`response_text` (line 225), which the function's parameter list does not
accept — a `TypeError` is raised at that call. -/
def baseTaskInstanceCreate (mgr : Manager)
    (task_type_id task_queue_id arguments name : PyVal) :
    List Request × Except PyErr BaseTaskInstance :=
  let request_url := mgr._client.base_api_url ++ mgr.list_url
  let data_to_post :=
    baseTaskInstanceCreateDataToPost task_type_id task_queue_id arguments name
  let response := mgr._client.session.postResponse request_url data_to_post
  match checkKwargs "validate_request_success" validateRequestSuccessParams
      validateCallKwargNames with
  | Except.error e => ([Request.post request_url data_to_post], Except.error e)
  | Except.ok _ =>
    match validate_request_success request_url response.status_code
        HTTP_201_CREATED with
    | Except.error e =>
        ([Request.post request_url data_to_post], Except.error e)
    | Except.ok _ =>
        ([Request.post request_url data_to_post],
         tiResponseDataToModelInstance response.jsonBody)

/-- The `data_to_post` dictionary of `BaseTaskTypeManager.create`
(base_task_type.py lines 143-163): `None` optional arguments become `[]` /
`[]` / `{}` (lines 144-151), and the three structured fields are posted as
`json.dumps` of those values. -/
def baseTaskTypeCreateDataToPost
    (name description command_to_run environment_variables required_arguments
      required_arguments_default_values : PyVal) : List (String × PyVal) :=
  let environment_variables :=
    if isNone environment_variables then PyVal.list []
    else environment_variables
  let required_arguments :=
    if isNone required_arguments then PyVal.list [] else required_arguments
  let required_arguments_default_values :=
    if isNone required_arguments_default_values then PyVal.dict []
    else required_arguments_default_values
  [("name", name),
   ("description", description),
   ("command_to_run", command_to_run),
   ("environment_variables", PyVal.str (jsonDumps environment_variables)),
   ("required_arguments", PyVal.str (jsonDumps required_arguments)),
   ("required_arguments_default_values",
     PyVal.str (jsonDumps required_arguments_default_values))]

/-- `BaseTaskTypeManager.create` (base_task_type.py lines 117-175): posts
the payload, then calls `validate_request_success` with the keyword
`response_text` (line 169), which the function's parameter list does not
accept — a `TypeError` is raised at that call. -/
def baseTaskTypeCreate (mgr : Manager)
    (name command_to_run description environment_variables required_arguments
      required_arguments_default_values : PyVal) :
    List Request × Except PyErr BaseTaskType :=
  let request_url := mgr._client.base_api_url ++ mgr.list_url
  let data_to_post :=
    baseTaskTypeCreateDataToPost name description command_to_run
      environment_variables required_arguments
      required_arguments_default_values
  let response := mgr._client.session.postResponse request_url data_to_post
  match checkKwargs "validate_request_success" validateRequestSuccessParams
      validateCallKwargNames with
  | Except.error e => ([Request.post request_url data_to_post], Except.error e)
  | Except.ok _ =>
    match validate_request_success request_url response.status_code
        HTTP_201_CREATED with
    | Except.error e =>
        ([Request.post request_url data_to_post], Except.error e)
    | Except.ok _ =>
        ([Request.post request_url data_to_post],
         ttResponseDataToModelInstance response.jsonBody)

/-- `BaseTaskTypeManager.get` (base_task_type.py lines 87-115): the
exclusive-or argument check (lines 106-108) raises `ValueError` before any
request; with only `id` set it calls
`super(BaseTaskTypeManager, self).get(id=id)` (line 112), which resolves to
`ModelManager.get` — a method taking no parameters, so the call raises a
`TypeError`; with only `name` set it calls `self.list(filters={...})`
(line 115), which resolves to `ModelManager.list` — likewise parameterless. -/
def baseTaskTypeGet (mgr : Manager) (id name : PyVal) :
    List Request × Except PyErr BaseTaskType :=
  let _ := mgr
  if !(Bool.xor (isNone id) (isNone name)) then
    ([], Except.error
      (PyErr.valueError "Either id or name must be set (but not both!)"))
  else if !(isNone id) then
    match checkKwargs "get" modelManagerGetParams ["id"] with
    | Except.error e => ([], Except.error e)
    | Except.ok _ => ([], Except.error PyErr.notImplementedError)
  else
    match checkKwargs "list" modelManagerListParams ["filters"] with
    | Except.error e => ([], Except.error e)
    | Except.ok _ => ([], Except.error PyErr.notImplementedError)

/-- The parameter names of `BaseTaskTypeManager.create` (base_task_type.py
lines 117-124); there is no `extra_data_to_post` among them. -/
def baseTaskTypeCreateParams : List String :=
  ["name", "command_to_run", "description", "environment_variables",
   "required_arguments", "required_arguments_default_values"]

/-- The `extra_data_to_post` dictionary `ContainerTaskTypeManager.create`
assembles (container_task_type.py lines 163-172): the caller's extra data
(defaulted to `{}`), updated with the four container-specific fields in
source order. -/
def containerCreateExtraData
    (extra_data_to_post : Option (List (String × PyVal)))
    (container_image container_type logs_path results_path : PyVal) :
    List (String × PyVal) :=
  let e := extra_data_to_post.getD []
  dictSet (dictSet (dictSet (dictSet e "container_image" container_image)
    "container_type" container_type) "logs_path" logs_path)
    "results_path" results_path

/-- `ContainerTaskTypeManager.create` (container_task_type.py lines
121-182): builds `extra_data_to_post`, then calls
`super(ContainerTaskTypeManager, self).create(..., extra_data_to_post=...)`
(lines 175-182); the parent `BaseTaskTypeManager.create` declares no
`extra_data_to_post` parameter, so the call raises a `TypeError` before any
request is issued. -/
def containerTaskTypeCreate (mgr : Manager)
    (name command_to_run container_image container_type description logs_path
      results_path environment_variables required_arguments
      required_arguments_default_values : PyVal)
    (extra_data_to_post : Option (List (String × PyVal))) :
    List Request × Except PyErr ContainerTaskType :=
  let extra_data := containerCreateExtraData extra_data_to_post
    container_image container_type logs_path results_path
  let _ := extra_data
  match checkKwargs "create" baseTaskTypeCreateParams
      ["name", "command_to_run", "description", "environment_variables",
       "required_arguments", "required_arguments_default_values",
       "extra_data_to_post"] with
  | Except.error e => ([], Except.error e)
  | Except.ok _ =>
    -- unreachable: the kwarg check above always rejects `extra_data_to_post`;
    -- were it accepted, the parent create would run with the container model
    let r := baseTaskTypeCreate mgr name command_to_run description
      environment_variables required_arguments
      required_arguments_default_values
    (r.1, Except.error PyErr.notImplementedError)

/-! Concrete fixtures: a transport session whose `GET` answers 404 and whose
`POST` answers 201, under a concrete base API URL. -/

/-- A concrete session for evaluating the managers. -/
def demoSession : Session :=
  { getResponse := fun _ =>
      { text := "not found", status_code := 404, jsonBody := PyVal.none },
    postResponse := fun _ _ =>
      { text := "created", status_code := 201, jsonBody := PyVal.none } }

/-- A concrete client. -/
def demoClient : Client :=
  { base_api_url := "https://example.com/api/", session := demoSession }

/-- A concrete task-instance manager (URL patterns as a task-instance
manager subclass would set them; the detail template is
`taskinstances/\x7buuid\x7d/`). -/
def demoTiMgr : Manager :=
  { _client := demoClient, list_url := "taskinstances/",
    detail_url := fun uuid => "taskinstances/" ++ uuid ++ "/" }

/-- A concrete container-task-type manager (URLs from
container_task_type.py lines 117-118; the detail template is
`containertasktypes/\x7bid\x7d/`). -/
def demoTtMgr : Manager :=
  { _client := demoClient, list_url := "containertasktypes/",
    detail_url := fun id => "containertasktypes/" ++ id ++ "/" }

/-- The closed form of an `'&'`-separated query-filter tail. -/
def ampPairs : List (String × PyVal) → String
  | [] => ""
  | kv :: rest => "&" ++ kv.1 ++ "=" ++ pyStr kv.2 ++ ampPairs rest

/-- The serialization fold over filters indexed from a positive start
prepends `'&'` to every pair, in order. -/
theorem foldl_enumFrom_amp (rest : List (String × PyVal)) :
    ∀ (n : Nat) (acc : String), n ≠ 0 →
      ((rest.enumFrom n).foldl
        (fun acc p =>
          acc ++ (if p.1 == 0 then "?" else "&") ++ p.2.1 ++ "=" ++ pyStr p.2.2)
        acc)
      = acc ++ ampPairs rest := by
  induction rest with
  | nil => intro n acc _; simp [ampPairs]
  | cons x xs ih =>
    intro n acc h
    have hn : (n == 0) = false := by
      cases n with
      | zero => exact absurd rfl h
      | succ m => rfl
    simp only [List.enumFrom, List.foldl, hn, ampPairs]
    rw [ih (n + 1) _ (Nat.succ_ne_zero n)]
    simp [String.append_assoc]

/-- Serializing a non-empty filter mapping: `'?'` before the first pair,
`'&'` before every later pair, in mapping order. -/
theorem queryFilterSubUrl_closed (k : String) (v : PyVal)
    (rest : List (String × PyVal)) :
    queryFilterSubUrl ((k, v) :: rest)
      = "?" ++ k ++ "=" ++ pyStr v ++ ampPairs rest := by
  simp only [queryFilterSubUrl, List.enum, List.enumFrom, List.foldl]
  rw [foldl_enumFrom_amp rest 1 _ one_ne_zero]
  simp [String.append_assoc]

/-- C1: the claim fails on the code, whose intent it correctly describes.
`list()` — with no filters, and equally with an explicit `page` filter —
raises `NameError` at `if page not in query_filters:` (the key was written
without quotes), before building any URL or issuing any request; the query
string the claim (and the code's own comment) describes, produced by the
spec-modelled pagination injection over the method's own serialization loop,
contains `page=1&page_size=9223372036854775807` with no filters and
preserves `page=2` while still injecting the default `page_size`. -/
theorem claim1_list_pagination_code_bug :
    (baseTaskInstanceList demoTiMgr Option.none).2
      = Except.error (PyErr.nameError "page")
  ∧ (baseTaskInstanceList demoTiMgr Option.none).1 = []
  ∧ (baseTaskInstanceList demoTiMgr (Option.some [("page", PyVal.int 2)])).2
      = Except.error (PyErr.nameError "page")
  ∧ listRequestUrlSpec demoTiMgr Option.none
      = "https://example.com/api/taskinstances/?page=1&page_size=9223372036854775807"
  ∧ listRequestUrlSpec demoTiMgr (Option.some [("page", PyVal.int 2)])
      = "https://example.com/api/taskinstances/?page=2&page_size=9223372036854775807" :=
  ⟨rfl, rfl, rfl, rfl, rfl⟩

/-- C8: the claim fails on the code: `list` raises `NameError` on the
undefined name `page` before the serialization loop runs, so no request URL
is ever produced; the serialization loop itself (lines 151-165, embedded as
`queryFilterSubUrl`) does serialize any non-empty mapping exactly as the
claim states — `'?'` before the first pair, `'&'` before each subsequent
pair, in mapping iteration order. -/
theorem claim8_query_string_serialization :
    (baseTaskInstanceList demoTiMgr
        (Option.some [("name", PyVal.str "foo"), ("user", PyVal.int 1)])).2
      = Except.error (PyErr.nameError "page")
  ∧ (baseTaskInstanceList demoTiMgr
        (Option.some [("name", PyVal.str "foo"), ("user", PyVal.int 1)])).1 = []
  ∧ (∀ (k : String) (v : PyVal) (rest : List (String × PyVal)),
      queryFilterSubUrl ((k, v) :: rest)
        = "?" ++ k ++ "=" ++ pyStr v ++ ampPairs rest)
  ∧ queryFilterSubUrl [("name", PyVal.str "foo"), ("user", PyVal.int 1)]
      = "?name=foo&user=1" :=
  ⟨rfl, rfl, queryFilterSubUrl_closed, rfl⟩

/-- C9 counterexample: contrary to the claim's account of `list`, a `list`
call does not fail by referencing `reponse` (nor by the `response_text`
keyword) — it fails earlier, with `NameError` on the undefined name `page`,
and issues no request at all. -/
theorem claim9_counterexample :
    (baseTaskInstanceList demoTiMgr Option.none).1 = []
  ∧ (baseTaskInstanceList demoTiMgr Option.none).2
      = Except.error (PyErr.nameError "page")
  ∧ (baseTaskInstanceList demoTiMgr Option.none).2
      ≠ Except.error (PyErr.nameError "reponse") := by
  refine ⟨rfl, rfl, ?_⟩
  intro h
  rw [show (baseTaskInstanceList demoTiMgr Option.none).2
      = Except.error (PyErr.nameError "page") from rfl] at h
  simp at h

/-- C9 as amended: for every manager state and every argument, none of the
four HTTP-performing operations can return a model instance — both `create`
methods post their payload and then raise `TypeError` at the
`validate_request_success` call (its signature does not accept the
`response_text` keyword they pass); `get` issues its request and then raises
`NameError` on the undefined name `reponse` while evaluating that call's
arguments; and `list` raises `NameError` on the undefined name `page` before
any request is issued. -/
theorem claim9_no_operation_returns_model (mgr : Manager)
    (name cmd desc ev ra rad uuid tti tqi args iname : PyVal)
    (query_filters : Option (List (String × PyVal))) :
    (baseTaskTypeCreate mgr name cmd desc ev ra rad).2
      = Except.error
          (PyErr.typeErrorUnexpectedKwarg "validate_request_success"
            "response_text")
  ∧ (baseTaskInstanceCreate mgr tti tqi args iname).2
      = Except.error
          (PyErr.typeErrorUnexpectedKwarg "validate_request_success"
            "response_text")
  ∧ (baseTaskInstanceGet mgr uuid).2
      = Except.error (PyErr.nameError "reponse")
  ∧ (baseTaskInstanceGet mgr uuid).1
      = [Request.get (mgr._client.base_api_url ++ mgr.detail_url (pyStr uuid))]
  ∧ (baseTaskInstanceList mgr query_filters).2
      = Except.error (PyErr.nameError "page")
  ∧ (baseTaskInstanceList mgr query_filters).1 = [] :=
  ⟨rfl, rfl, rfl, rfl, rfl, rfl⟩

/-- C2: evaluated on the code: `get(id=None, name=None)` and
`get(id=5, name="x")` do raise `ValueError` with no request issued, exactly
as claimed; but the claimed success case `get(id=5, name=None)` raises a
`TypeError` instead of returning a task type — the delegation target
`super(BaseTaskTypeManager, self).get(id=id)` resolves to
`ModelManager.get`, which declares no `id` parameter (and whose body is
`raise NotImplementedError`). -/
theorem claim2_task_type_get_code_bug :
    (baseTaskTypeGet demoTtMgr PyVal.none PyVal.none).2
      = Except.error
          (PyErr.valueError "Either id or name must be set (but not both!)")
  ∧ (baseTaskTypeGet demoTtMgr PyVal.none PyVal.none).1 = []
  ∧ (baseTaskTypeGet demoTtMgr (PyVal.int 5) (PyVal.str "x")).2
      = Except.error
          (PyErr.valueError "Either id or name must be set (but not both!)")
  ∧ (baseTaskTypeGet demoTtMgr (PyVal.int 5) (PyVal.str "x")).1 = []
  ∧ (baseTaskTypeGet demoTtMgr (PyVal.int 5) PyVal.none).2
      = Except.error (PyErr.typeErrorUnexpectedKwarg "get" "id")
  ∧ (baseTaskTypeGet demoTtMgr (PyVal.int 5) PyVal.none).1 = [] :=
  ⟨rfl, rfl, rfl, rfl, rfl, rfl⟩

/-- C3: the validation function itself behaves exactly as claimed — a 404
where 200 was expected raises `BadHttpRequestError` whose message contains
the literal requested URL and the observed code, and an exact match raises
nothing — but the read operations never reach it: `get` on a 404 response
raises `NameError` on the undefined name `reponse` while evaluating the
validation call's arguments (and that call also passes the unaccepted
`response_text` keyword). -/
theorem claim3_status_validation_code_bug :
    validate_request_success "https://example.com/api/taskinstances/abc/"
        404 200
      = Except.error (PyErr.badHttpRequestError
          "Request to https://example.com/api/taskinstances/abc/ failed with status 404")
  ∧ (∃ s t,
      "Request to https://example.com/api/taskinstances/abc/ failed with status 404"
        = s ++ "https://example.com/api/taskinstances/abc/" ++ t)
  ∧ (∃ s t,
      "Request to https://example.com/api/taskinstances/abc/ failed with status 404"
        = s ++ "404" ++ t)
  ∧ validate_request_success "https://example.com/api/taskinstances/abc/"
        200 200
      = Except.ok ()
  ∧ (baseTaskInstanceGet demoTiMgr (PyVal.str "abc")).1
      = [Request.get "https://example.com/api/taskinstances/abc/"]
  ∧ (baseTaskInstanceGet demoTiMgr (PyVal.str "abc")).2
      = Except.error (PyErr.nameError "reponse") :=
  ⟨rfl,
   ⟨"Request to ", " failed with status 404", rfl⟩,
   ⟨"Request to https://example.com/api/taskinstances/abc/ failed with status ",
    "", rfl⟩,
   rfl, rfl, rfl⟩

/-- A task-instance response dictionary with the standard keys, in server
field order. -/
def tiResponseDict
    (uuid state user task_queue task_type datetime_created datetime_finished
      arguments name : PyVal) : PyVal :=
  PyVal.dict
    [("uuid", uuid), ("state", state), ("user", user),
     ("task_queue", task_queue), ("task_type", task_type),
     ("datetime_created", datetime_created),
     ("datetime_finished", datetime_finished),
     ("arguments", arguments), ("name", name)]

/-- A concrete task-type response dictionary. -/
def ttDemoResponse : PyVal :=
  PyVal.dict
    [("id", PyVal.int 1), ("name", PyVal.str "my-task-type"),
     ("description", PyVal.str "d"), ("user", PyVal.str "u"),
     ("datetime_created", PyVal.str "2018-05-01T00:00:00Z"),
     ("command_to_run", PyVal.str "echo"),
     ("environment_variables", PyVal.list [PyVal.str "A"]),
     ("required_arguments", PyVal.list [PyVal.str "x"]),
     ("required_arguments_default_values", PyVal.dict [("x", PyVal.int 1)])]

/-- C4: the round trip holds for task instances — the create payload is
assembled and a simulated response with the same fields parses to an
instance with equal attributes and a structured `datetime_created` — but it
fails for the other two kinds: converting any task-type response raises
`AttributeError` (the `super()` delegation target `ModelManager` has no
`response_data_to_model_instance`), and no `ContainerTaskType` can be
constructed at all (its `__init__` forwards a `manager` keyword that
`BaseTaskType.__init__` does not accept). -/
theorem claim4_round_trip_code_bug :
    ttResponseDataToModelInstance ttDemoResponse
      = Except.error (PyErr.attributeError "response_data_to_model_instance")
  ∧ containerTaskTypeInit (PyVal.int 1) (PyVal.str "n") (PyVal.str "d")
        (PyVal.str "u") (PyVal.str "2018-05-01T00:00:00Z") (PyVal.str "echo")
        (PyVal.list []) (PyVal.list []) (PyVal.dict []) (PyVal.str "lp")
        (PyVal.str "rp") (PyVal.str "img") (PyVal.str "docker") PyVal.none
      = Except.error
          (PyErr.typeErrorUnexpectedKwarg "BaseTaskType.__init__" "manager")
  ∧ baseTaskInstanceCreateDataToPost (PyVal.int 2) (PyVal.int 1)
        (PyVal.dict [("x", PyVal.int 3)]) (PyVal.str "job")
      = [("name", PyVal.str "job"),
         ("arguments", PyVal.str "\x7b\"x\": 3\x7d"),
         ("task_type", PyVal.int 2), ("task_queue", PyVal.int 1)]
  ∧ tiResponseDataToModelInstance
        (tiResponseDict (PyVal.str "uuid-1") (PyVal.str "created")
          (PyVal.str "u") (PyVal.int 1) (PyVal.int 2)
          (PyVal.str "2018-05-01T00:00:00Z") PyVal.none
          (PyVal.dict [("x", PyVal.int 3)]) (PyVal.str "job"))
      = Except.ok
          { name := PyVal.str "job", uuid := PyVal.str "uuid-1",
            state := PyVal.str "created", user := PyVal.str "u",
            task_queue := PyVal.int 1, task_type := PyVal.int 2,
            datetime_created := PyVal.datetime "2018-05-01T00:00:00Z",
            datetime_finished := PyVal.none,
            arguments := PyVal.dict [("x", PyVal.int 3)] } :=
  ⟨rfl, rfl, rfl, rfl⟩

/-- C5: for every task-instance response dictionary (with the standard
keys), `datetime_created` is always parsed into a structured date-time
value, and `datetime_finished` is parsed exactly when present and non-null:
a null `datetime_finished` is left untouched, so the resulting instance's
completion timestamp stays null, while a non-empty date-time string is
parsed into a structured value. -/
theorem claim5_datetime_finished_optional (s t : String)
    (uuid state user tq tt args name : PyVal) (ht : t ≠ "") :
    tiResponseDataToModelInstance
        (tiResponseDict uuid state user tq tt (PyVal.str s) PyVal.none args
          name)
      = Except.ok
          { name, uuid, state, user, task_queue := tq, task_type := tt,
            datetime_created := PyVal.datetime s,
            datetime_finished := PyVal.none, arguments := args }
  ∧ tiResponseDataToModelInstance
        (tiResponseDict uuid state user tq tt (PyVal.str s) (PyVal.str t)
          args name)
      = Except.ok
          { name, uuid, state, user, task_queue := tq, task_type := tt,
            datetime_created := PyVal.datetime s,
            datetime_finished := PyVal.datetime t, arguments := args } := by
  constructor
  · rfl
  · have htr : pyTruthy (PyVal.str t) = true := by simp [pyTruthy, ht]
    simp [tiResponseDataToModelInstance, tiResponseDict, dictGet, dictSet,
      dictContains, dateutilParse, htr, baseTaskInstanceInit, requiredArg,
      baseTaskInstanceInitParams, List.find?]
    rfl

/-- C5 witness: the theorem applied at one concrete response. -/
theorem claim5_witness :
    ("2018-05-02T00:00:00Z" : String) ≠ ""
  ∧ tiResponseDataToModelInstance
        (tiResponseDict (PyVal.str "uuid-1") (PyVal.str "running")
          (PyVal.str "u") (PyVal.int 1) (PyVal.int 2)
          (PyVal.str "2018-05-01T00:00:00Z") PyVal.none (PyVal.dict [])
          (PyVal.str ""))
      = Except.ok
          { name := PyVal.str "", uuid := PyVal.str "uuid-1",
            state := PyVal.str "running", user := PyVal.str "u",
            task_queue := PyVal.int 1, task_type := PyVal.int 2,
            datetime_created := PyVal.datetime "2018-05-01T00:00:00Z",
            datetime_finished := PyVal.none, arguments := PyVal.dict [] }
  ∧ tiResponseDataToModelInstance
        (tiResponseDict (PyVal.str "uuid-1") (PyVal.str "running")
          (PyVal.str "u") (PyVal.int 1) (PyVal.int 2)
          (PyVal.str "2018-05-01T00:00:00Z")
          (PyVal.str "2018-05-02T00:00:00Z") (PyVal.dict [])
          (PyVal.str ""))
      = Except.ok
          { name := PyVal.str "", uuid := PyVal.str "uuid-1",
            state := PyVal.str "running", user := PyVal.str "u",
            task_queue := PyVal.int 1, task_type := PyVal.int 2,
            datetime_created := PyVal.datetime "2018-05-01T00:00:00Z",
            datetime_finished := PyVal.datetime "2018-05-02T00:00:00Z",
            arguments := PyVal.dict [] } := by
  have h := claim5_datetime_finished_optional "2018-05-01T00:00:00Z"
    "2018-05-02T00:00:00Z" (PyVal.str "uuid-1") (PyVal.str "running")
    (PyVal.str "u") (PyVal.int 1) (PyVal.int 2) (PyVal.dict [])
    (PyVal.str "") (by decide)
  exact ⟨by decide, h.1, h.2⟩

/-- C6: the claim fails on the code: creating a container task type raises a
`TypeError` before any request is issued, because the parent
`BaseTaskTypeManager.create` declares no `extra_data_to_post` parameter (and
its payload dictionary carries no container fields at all); the
extra-data dictionary itself is assembled with the four container-specific
fields exactly as described, but can never reach a payload. -/
theorem claim6_container_create_code_bug :
    (containerTaskTypeCreate demoTtMgr (PyVal.str "n") (PyVal.str "cmd")
        (PyVal.str "img") (PyVal.str "docker") (PyVal.str "") (PyVal.str "lp")
        (PyVal.str "rp") PyVal.none PyVal.none PyVal.none Option.none).1 = []
  ∧ (containerTaskTypeCreate demoTtMgr (PyVal.str "n") (PyVal.str "cmd")
        (PyVal.str "img") (PyVal.str "docker") (PyVal.str "") (PyVal.str "lp")
        (PyVal.str "rp") PyVal.none PyVal.none PyVal.none Option.none).2
      = Except.error
          (PyErr.typeErrorUnexpectedKwarg "create" "extra_data_to_post")
  ∧ containerCreateExtraData Option.none (PyVal.str "img")
        (PyVal.str "docker") (PyVal.str "lp") (PyVal.str "rp")
      = [("container_image", PyVal.str "img"),
         ("container_type", PyVal.str "docker"),
         ("logs_path", PyVal.str "lp"), ("results_path", PyVal.str "rp")]
  ∧ dictGet (baseTaskTypeCreateDataToPost (PyVal.str "n") (PyVal.str "")
        (PyVal.str "cmd") PyVal.none PyVal.none PyVal.none) "container_image"
      = Option.none :=
  ⟨rfl, rfl, rfl, rfl⟩

/-- C7: for every create call, the payload that is posted (exactly one
`POST` is issued per call) maps each optional structured field to its JSON
encoding: `None` becomes the encoded empty container (`[]` for the two
list-valued task-type fields, `\x7b\x7d` for the default-values mapping and
for task-instance `arguments`) — never absent or null — and a caller-supplied
structured value is JSON-encoded to text. -/
theorem claim7_create_payload_encoding (mgr : Manager)
    (name cmd desc ev ra rad tti tqi args iname : PyVal) :
    (baseTaskTypeCreate mgr name cmd desc ev ra rad).1
      = [Request.post (mgr._client.base_api_url ++ mgr.list_url)
          (baseTaskTypeCreateDataToPost name desc cmd ev ra rad)]
  ∧ (ev = PyVal.none →
      dictGet (baseTaskTypeCreateDataToPost name desc cmd ev ra rad)
          "environment_variables" = Option.some (PyVal.str "[]"))
  ∧ (ra = PyVal.none →
      dictGet (baseTaskTypeCreateDataToPost name desc cmd ev ra rad)
          "required_arguments" = Option.some (PyVal.str "[]"))
  ∧ (rad = PyVal.none →
      dictGet (baseTaskTypeCreateDataToPost name desc cmd ev ra rad)
          "required_arguments_default_values"
        = Option.some (PyVal.str "\x7b\x7d"))
  ∧ (isNone ev = false →
      dictGet (baseTaskTypeCreateDataToPost name desc cmd ev ra rad)
          "environment_variables"
        = Option.some (PyVal.str (jsonDumps ev)))
  ∧ (isNone ra = false →
      dictGet (baseTaskTypeCreateDataToPost name desc cmd ev ra rad)
          "required_arguments" = Option.some (PyVal.str (jsonDumps ra)))
  ∧ (isNone rad = false →
      dictGet (baseTaskTypeCreateDataToPost name desc cmd ev ra rad)
          "required_arguments_default_values"
        = Option.some (PyVal.str (jsonDumps rad)))
  ∧ (baseTaskInstanceCreate mgr tti tqi args iname).1
      = [Request.post (mgr._client.base_api_url ++ mgr.list_url)
          (baseTaskInstanceCreateDataToPost tti tqi args iname)]
  ∧ (args = PyVal.none →
      dictGet (baseTaskInstanceCreateDataToPost tti tqi args iname)
          "arguments" = Option.some (PyVal.str "\x7b\x7d"))
  ∧ (pyTruthy args = true →
      dictGet (baseTaskInstanceCreateDataToPost tti tqi args iname)
          "arguments" = Option.some (PyVal.str (jsonDumps args))) := by
  refine ⟨rfl, ?_, ?_, ?_, ?_, ?_, ?_, rfl, ?_, ?_⟩
  · intro h; subst h; rfl
  · intro h; subst h; rfl
  · intro h; subst h; rfl
  · intro h; simp [baseTaskTypeCreateDataToPost, dictGet, List.find?, h]
  · intro h; simp [baseTaskTypeCreateDataToPost, dictGet, List.find?, h]
  · intro h; simp [baseTaskTypeCreateDataToPost, dictGet, List.find?, h]
  · intro h; subst h; rfl
  · intro h; simp [baseTaskInstanceCreateDataToPost, dictGet, List.find?, h]

/-- C7 witness: the theorem applied at concrete inputs, once with all
optional fields `None` and once with caller-supplied structured values. -/
theorem claim7_witness :
    dictGet (baseTaskTypeCreateDataToPost (PyVal.str "n") (PyVal.str "")
        (PyVal.str "cmd") PyVal.none PyVal.none PyVal.none)
        "environment_variables" = Option.some (PyVal.str "[]")
  ∧ dictGet (baseTaskTypeCreateDataToPost (PyVal.str "n") (PyVal.str "")
        (PyVal.str "cmd") PyVal.none PyVal.none PyVal.none)
        "required_arguments_default_values"
      = Option.some (PyVal.str "\x7b\x7d")
  ∧ dictGet (baseTaskTypeCreateDataToPost (PyVal.str "n") (PyVal.str "")
        (PyVal.str "cmd") (PyVal.list [PyVal.str "A"]) PyVal.none PyVal.none)
        "environment_variables"
      = Option.some (PyVal.str (jsonDumps (PyVal.list [PyVal.str "A"])))
  ∧ dictGet (baseTaskInstanceCreateDataToPost (PyVal.int 1) (PyVal.int 2)
        PyVal.none (PyVal.str "")) "arguments"
      = Option.some (PyVal.str "\x7b\x7d")
  ∧ dictGet (baseTaskInstanceCreateDataToPost (PyVal.int 1) (PyVal.int 2)
        (PyVal.dict [("x", PyVal.int 3)]) (PyVal.str "")) "arguments"
      = Option.some
          (PyVal.str (jsonDumps (PyVal.dict [("x", PyVal.int 3)]))) := by
  have h1 := claim7_create_payload_encoding demoTtMgr (PyVal.str "n")
    (PyVal.str "cmd") (PyVal.str "") PyVal.none PyVal.none PyVal.none
    (PyVal.int 1) (PyVal.int 2) PyVal.none (PyVal.str "")
  have h2 := claim7_create_payload_encoding demoTtMgr (PyVal.str "n")
    (PyVal.str "cmd") (PyVal.str "") (PyVal.list [PyVal.str "A"]) PyVal.none
    PyVal.none (PyVal.int 1) (PyVal.int 2) (PyVal.dict [("x", PyVal.int 3)])
    (PyVal.str "")
  exact ⟨h1.2.1 rfl, h1.2.2.2.1 rfl, h2.2.2.2.2.1 rfl,
    h1.2.2.2.2.2.2.2.2.1 rfl, h2.2.2.2.2.2.2.2.2.2 (by decide)⟩

/-- C10: for every argument tuple, constructing a `ContainerTaskType` raises
`TypeError`: its `__init__` forwards the `manager` keyword to
`BaseTaskType.__init__`, whose parameter list does not include `manager`, so
no `ContainerTaskType` instance can ever be constructed. -/
theorem claim10_container_task_type_unconstructible
    (id name description user datetime_created command_to_run ev ra rad
      logs_path results_path container_image container_type manager : PyVal) :
    containerTaskTypeInit id name description user datetime_created
        command_to_run ev ra rad logs_path results_path container_image
        container_type manager
      = Except.error
          (PyErr.typeErrorUnexpectedKwarg "BaseTaskType.__init__" "manager") :=
  rfl

end Saltant
